import Mathlib

/-!
Verification model of the `home-assistant-ebay-monitor` integration
(`custom_components/ebay/coordinator.py` and `custom_components/ebay/ebay_api.py`).

The polling/diff/event-emission engine is shallowly embedded:

* Python item dicts become the `Item` structure; optional dict fields become
  `Option` fields (`none` models both a missing key and a `None` value).
* `datetime` values are modelled as `Int` seconds; `datetime.fromisoformat`
  (together with the `"Z" -> "+00:00"` normalisation) is abstracted into a
  `parse : String -> Option Int` parameter — `none` models a raised
  `ValueError`/`AttributeError`.  The sentinel `datetime.max` used by
  `_sort_by_end_time` is a parameter `dtMax`, `datetime.min` used by
  `_sort_by_purchase_date` is `dtMin`.
* Fired Home Assistant bus events become values of the `Event` inductive,
  collected in emission order into a `List Event`.
* Python's `str.lower` is modelled by `strLower` (character-wise `Char.toLower`).
* `dict`s keyed by item id are modelled as `List Item` in insertion order,
  with lookup by `item_id`; sets of ids are modelled as duplicate-free
  `List String` (Python set iteration order is arbitrary, so list order is a
  deterministic refinement).
-/

namespace EbayMonitor

/-- A normalized marketplace item record, as produced by `ebay_api.py` parsers
and consumed by `coordinator.py`.  Each optional field models a dict key that
may be absent (or `None`). -/
structure Item where
  item_id : String
  is_high_bidder : Option Bool := none
  end_time : Option String := none
  shipping_status : Option String := none
  listing_status : Option String := none
  high_bidder_username : Option String := none
  purchase_date : Option String := none
  updated_at : Option String := none
  deriving Repr, DecidableEq

/-- Events fired on the Home Assistant bus by the coordinators (`const.py`
`EVENT_*` names).  Payloads are reduced to the identifying item id (and the
`minutes_remaining` figure for `ebay_auction_ending_soon`). -/
inductive Event where
  | newSearchResult (item_id : String)
  | becameHighBidder (item_id : String)
  | outbid (item_id : String)
  | auctionEndingSoon (item_id : String) (minutesRemaining : Int)
  | auctionWon (item_id : String)
  | auctionLost (item_id : String)
  | itemShipped (item_id : String)
  | itemDelivered (item_id : String)
  | newPurchase (item_id : String)
  deriving Repr, DecidableEq

/-- The item id an event is about. -/
def Event.itemId : Event → String
  | .newSearchResult i => i
  | .becameHighBidder i => i
  | .outbid i => i
  | .auctionEndingSoon i _ => i
  | .auctionWon i => i
  | .auctionLost i => i
  | .itemShipped i => i
  | .itemDelivered i => i
  | .newPurchase i => i

/-- Model of Python's `str.lower()`: lower-case every character. -/
def strLower (s : String) : String := String.mk (s.data.map Char.toLower)

/-- Lookup in a previous-snapshot dict (`self._previous_data.get(item_id)`);
the dict is modelled as its value list in insertion order. -/
def findPrev (prevData : List Item) (item_id : String) : Option Item :=
  prevData.find? (fun p => p.item_id == item_id)

/-! ## Sorting helpers (`coordinator.py` `_sort_by_end_time`,
`_sort_by_purchase_date`) -/

/-- Sort key of `_sort_by_end_time.get_end_time`: a missing key, a `None` or
empty value, or an unparsable string all yield the `datetime.max` sentinel
`dtMax`; otherwise the parsed time. -/
def endTimeKey (parse : String → Option Int) (dtMax : Int) (item : Item) : Int :=
  match item.end_time with
  | none => dtMax
  | some s =>
    if s == "" then dtMax
    else
      match parse s with
      | none => dtMax
      | some t => t

/-- `_sort_by_end_time`: stable sort, soonest end time first (Python `sorted`
is a stable merge sort). -/
def sortByEndTime (parse : String → Option Int) (dtMax : Int)
    (items : List Item) : List Item :=
  items.mergeSort (fun a b =>
    decide (endTimeKey parse dtMax a ≤ endTimeKey parse dtMax b))

/-- Python truthiness of an optional string: `None` and `""` are falsy. -/
def truthyStr : Option String → Option String
  | none => none
  | some s => if s == "" then none else some s

/-- Timestamp string chosen by `_sort_by_purchase_date.get_purchase_time`:
`item.get("purchase_date") or item.get("end_time") or item.get("updated_at", "")`,
with a falsy final value handled by the `if not time_str` guard. -/
def purchaseTimeStr (item : Item) : Option String :=
  match truthyStr item.purchase_date with
  | some s => some s
  | none =>
    match truthyStr item.end_time with
    | some s => some s
    | none => truthyStr item.updated_at

/-- Sort key of `_sort_by_purchase_date`: missing or unparsable timestamps
yield the `datetime.min` sentinel `dtMin`. -/
def purchaseTimeKey (parse : String → Option Int) (dtMin : Int) (item : Item) : Int :=
  match purchaseTimeStr item with
  | none => dtMin
  | some s =>
    match parse s with
    | none => dtMin
    | some t => t

/-- `_sort_by_purchase_date`: stable sort with `reverse=True` (newest first;
on equal keys the original order is kept, so the comparator keeps the left
element when keys are equal). -/
def sortByPurchaseDate (parse : String → Option Int) (dtMin : Int)
    (items : List Item) : List Item :=
  items.mergeSort (fun a b =>
    decide (purchaseTimeKey parse dtMin b ≤ purchaseTimeKey parse dtMin a))

/-! ## State retention (`coordinator.py` `_clean_old_items`) -/

/-- `STATE_RETENTION_DAYS` (coordinator.py line 31). -/
def STATE_RETENTION_DAYS : Int := 60

/-- Seconds in a day (`timedelta(days=...)` arithmetic). -/
def secondsPerDay : Int := 86400

/-- Timestamp used to judge a stored item's age:
`item.get("end_time") or item.get("updated_at")` with Python truthiness. -/
def ageTimestamp (item : Item) : Option String :=
  match truthyStr item.end_time with
  | some s => some s
  | none => truthyStr item.updated_at

/-- `_clean_old_items`: drop stored entries whose timestamp parses to a time
not after `now - 60 days`; entries with no (truthy) timestamp or an unparsable
one are kept.  The stored dict is modelled as an association list. -/
def cleanOldItems (parse : String → Option Int) (now : Int)
    (data : List (String × Item)) : List (String × Item) :=
  if data.isEmpty then []
  else
    let cutoff := now - STATE_RETENTION_DAYS * secondsPerDay
    data.filter (fun entry =>
      match ageTimestamp entry.2 with
      | none => true
      | some s =>
        match parse s with
        | none => true
        | some itemTime => decide (cutoff < itemTime))

/-! ## Purchases poller (`EbayPurchasesCoordinator._check_shipping_changes`) -/

/-- Events fired for one current purchase, given its previous snapshot
(`none` = not seen before).  Mirrors the body of the `for purchase in
current_purchases` loop in `_check_shipping_changes` (coordinator.py 612-671):
a new purchase fires `ebay_new_purchase` and skips the shipping checks;
otherwise `shipped`/`delivered` transitions are detected by an `if`/`elif`. -/
def shippingEvents (previous : Option Item) (purchase : Item) : List Event :=
  match previous with
  | none => [Event.newPurchase purchase.item_id]
  | some prev =>
    if purchase.shipping_status == some "shipped"
        && !(prev.shipping_status == some "shipped") then
      [Event.itemShipped purchase.item_id]
    else if purchase.shipping_status == some "delivered"
        && !(prev.shipping_status == some "delivered") then
      [Event.itemDelivered purchase.item_id]
    else []

/-- `EbayPurchasesCoordinator._check_shipping_changes`: diff the current
purchases against the previous snapshot, firing events in loop order. -/
def checkShippingChanges (prevData : List Item) (currentPurchases : List Item) :
    List Event :=
  currentPurchases.flatMap
    (fun purchase => shippingEvents (findPrev prevData purchase.item_id) purchase)

/-! ## Bids poller (`EbayBidsCoordinator`) -/

/-- Ambient facts a bids poll cycle consults:
* `lookup` — the authoritative `EbayAPI.get_item` call; `none` models every
  failure mode (a raised exception, an HTTP error, or a response without an
  `Item` payload — all of which make the coordinator fall back, since
  `get_item` returns `{}` which is falsy and exceptions are caught);
* `ebayUsername` — `EbayAPI._ebay_username` (`none` = identity not resolved);
* `parse` — `datetime.fromisoformat` on this cycle's strings;
* `now` — `datetime.now()` during this cycle, in seconds;
* `dtMax` — the `datetime.max` sentinel of `_sort_by_end_time`. -/
structure BidsEnv where
  lookup : String → Option Item
  ebayUsername : Option String
  parse : String → Option Int
  now : Int
  dtMax : Int

/-- Win/loss resolution for one item that vanished from the active-bids list
(coordinator.py 270-441).  Precedence: a successful authoritative lookup with
terminal status (`Completed`/`Ended`) decides by case-insensitive comparison of
the reported high bidder against the account username; a successful lookup
with any other status fires nothing; a failed lookup falls back to the cached
`is_high_bidder` flag of the previous snapshot. -/
def resolveEndedAuction (env : BidsEnv) (previous : Item) : List Event :=
  match env.lookup previous.item_id with
  | some finalItem =>
    let listingStatus := finalItem.listing_status.getD "Unknown"
    if listingStatus == "Completed" || listingStatus == "Ended" then
      let highBidder := finalItem.high_bidder_username.getD ""
      let ebayUsername := env.ebayUsername.getD ""
      let youWon := highBidder != "" && ebayUsername != ""
        && strLower highBidder == strLower ebayUsername
      if youWon then [Event.auctionWon previous.item_id]
      else [Event.auctionLost previous.item_id]
    else []
  | none =>
    if previous.is_high_bidder.getD false then [Event.auctionWon previous.item_id]
    else [Event.auctionLost previous.item_id]

/-- `EbayBidsCoordinator._check_ending_soon` (coordinator.py 444-475) for one
bid: fire `ebay_auction_ending_soon` when `0 < minutes_remaining <= 15` and
either no previous firing is recorded or it was more than 600 seconds ago.
A missing or unparsable `end_time` raises inside the `try` and fires nothing.
Returns the fired events and the updated per-item last-fired times. -/
def checkEndingSoon (env : BidsEnv) (lastFired : List (String × Int))
    (bid : Item) : List Event × List (String × Int) :=
  match bid.end_time with
  | none => ([], lastFired)
  | some s =>
    match env.parse s with
    | none => ([], lastFired)
    | some endTime =>
      let secondsRemaining := endTime - env.now
      if 0 < secondsRemaining && secondsRemaining ≤ 900 then
        match lastFired.lookup bid.item_id with
        | none =>
          ([Event.auctionEndingSoon bid.item_id (secondsRemaining / 60)],
           (bid.item_id, env.now) :: lastFired)
        | some last =>
          if env.now - last > 600 then
            ([Event.auctionEndingSoon bid.item_id (secondsRemaining / 60)],
             (bid.item_id, env.now) :: lastFired)
          else ([], lastFired)
      else ([], lastFired)

/-- High-bidder transition events for one current bid (coordinator.py 215-256):
a bid with no previous snapshot fires nothing here (the loop `continue`s after
the ending-soon check); otherwise `false -> true` fires
`ebay_became_high_bidder` and `true -> false` fires `ebay_outbid`. -/
def bidTransitionEvents (prevData : List Item) (bid : Item) : List Event :=
  match findPrev prevData bid.item_id with
  | none => []
  | some previous =>
    let currentHigh := bid.is_high_bidder.getD false
    let previousHigh := previous.is_high_bidder.getD false
    if currentHigh && !previousHigh then [Event.becameHighBidder bid.item_id]
    else if !currentHigh && previousHigh then [Event.outbid bid.item_id]
    else []

/-- The per-current-bid loop of `_check_bid_changes`: each bid contributes its
transition events followed by its ending-soon events, threading the
last-fired state through the loop. -/
def checkBidsLoop (env : BidsEnv) (prevData : List Item) :
    List Item → List (String × Int) → List Event × List (String × Int)
  | [], lastFired => ([], lastFired)
  | bid :: rest, lastFired =>
    let tev := bidTransitionEvents prevData bid
    let (sev, lf') := checkEndingSoon env lastFired bid
    let (evs, lf'') := checkBidsLoop env prevData rest lf'
    (tev ++ sev ++ evs, lf'')

/-- `EbayBidsCoordinator._check_bid_changes` (coordinator.py 204-441): the
per-bid loop followed by win/loss resolution for every previously-seen item
absent from the current fetch (`previous_ids - current_ids`). -/
def checkBidChanges (env : BidsEnv) (prevData : List Item)
    (currentBids : List Item) (lastFired : List (String × Int)) :
    List Event × List (String × Int) :=
  let (loopEvents, lf') := checkBidsLoop env prevData currentBids lastFired
  let currentIds := currentBids.map Item.item_id
  let endedItems := prevData.filter (fun p => !currentIds.contains p.item_id)
  (loopEvents ++ endedItems.flatMap (resolveEndedAuction env), lf')

/-- Mutable state of `EbayBidsCoordinator` relevant to a poll cycle:
the in-memory previous snapshot, the persisted store contents, and the
per-item ending-soon last-fired attributes. -/
structure BidsState where
  previousData : List Item
  stored : Option (List Item)
  lastFired : List (String × Int)
  deriving Repr, DecidableEq

/-- One steady-state cycle of `EbayBidsCoordinator._async_update_data`
(coordinator.py 155-202, after the one-time state load): a failed fetch of
`get_my_ebay_buying` raises `UpdateFailed` before any diff, event or state
write; a successful fetch diffs, replaces the snapshot wholesale, persists it
(`saveOk = false` models a failed `async_save`, which only logs), and returns
the bids sorted by end time. -/
def bidsUpdateData (env : BidsEnv) (fetchResult : Except Unit (List Item))
    (saveOk : Bool) (s : BidsState) :
    Except Unit (List Item) × BidsState × List Event :=
  match fetchResult with
  | .error e => (.error e, s, [])
  | .ok bids =>
    let (events, lf') := checkBidChanges env s.previousData bids s.lastFired
    let newPrev := bids
    let stored' := if saveOk then some newPrev else s.stored
    (.ok (sortByEndTime env.parse env.dtMax bids),
     { previousData := newPrev, stored := stored', lastFired := lf' }, events)

/-! ## Search poller (`EbaySearchCoordinator`) -/

/-- The `for item in current_results` loop of `_check_new_items`
(coordinator.py 816-838): `firstRun` is `len(self._previous_item_ids) == 0`,
`eventCount` the running number of fired events; on the first run events are
capped at 5 while later items are skipped with `continue`. -/
def checkNewItemsGo (firstRun : Bool) (prevIds : List String) :
    Nat → List Item → List Event
  | _, [] => []
  | eventCount, item :: rest =>
    if prevIds.contains item.item_id then
      checkNewItemsGo firstRun prevIds eventCount rest
    else if firstRun && decide (eventCount ≥ 5) then
      checkNewItemsGo firstRun prevIds eventCount rest
    else
      Event.newSearchResult item.item_id ::
        checkNewItemsGo firstRun prevIds (eventCount + 1) rest

/-- `EbaySearchCoordinator._check_new_items` (coordinator.py 791-838): an item
fires when its id is in `current_ids - previous_item_ids`, which for a member
of the current results is exactly "id not previously seen". -/
def checkNewItems (prevIds : List String) (currentResults : List Item) :
    List Event :=
  checkNewItemsGo prevIds.isEmpty prevIds 0 currentResults

/-- The seen-set update of `EbaySearchCoordinator._async_update_data`
(coordinator.py 753-765): union the current ids into the history, then trim
to the most recent 1000 ids (`set(list(...)[-1000:])`; Python set order is
arbitrary, the model drops from the front of the insertion-ordered list). -/
def updateSeen (prevIds : List String) (currentResults : List Item) :
    List String :=
  let currentIds := (currentResults.map Item.item_id).dedup
  let updated := prevIds ++ currentIds.filter (fun i => !prevIds.contains i)
  if updated.length > 1000 then updated.drop (updated.length - 1000) else updated

/-! ## Marketplace search (`EbayAPI._search_items_browse`) -/

/-- The decoded JSON body of a Browse API response, reduced to the fields the
search path inspects: the optional `errors`/`warnings` keys and the
`itemSummaries` entries, each already passed through `_parse_browse_item`
(`none` = that entry failed to parse and is skipped). -/
structure BrowseResponse where
  errors : Option (List String) := none
  warnings : Option (List String) := none
  itemSummaries : List (Option Item) := []
  deriving Repr, DecidableEq

/-- The remote-interaction outcomes one `_search_items_browse` call can see:
`token` is the OAuth token (`none` = `_get_oauth_token` failed);
`requestRaises` models any exception raised inside the `try` body
(transport error, timeout); `status` is the HTTP status; `json` is the parsed
body (`none` = `response.json()` raised). -/
structure SearchWorld where
  token : Option String := none
  requestRaises : Bool := false
  status : Nat := 200
  json : Option BrowseResponse := none
  deriving Repr, DecidableEq

/-- The `try` body of `_search_items_browse` (ebay_api.py 500-636); `.error`
models an uncaught exception reaching the outer handler. -/
def searchItemsBrowseCore (w : SearchWorld) : Except Unit (List Item) :=
  match w.token with
  | none => .ok []
  | some _ =>
    if w.requestRaises then .error ()
    else if w.status != 200 then .ok []
    else
      match w.json with
      | none => .ok []
      | some data =>
        if data.errors.isSome || data.warnings.isSome then
          if data.errors.getD [] != [] then .ok []
          else .ok (data.itemSummaries.filterMap id)
        else .ok (data.itemSummaries.filterMap id)

/-- `EbayAPI._search_items_browse` (ebay_api.py 490-640): the `try` body with
the outer `except` that degrades any raised exception to an empty result. -/
def searchItemsBrowse (w : SearchWorld) : List Item :=
  match searchItemsBrowseCore w with
  | .ok items => items
  | .error _ => []

/-! # Theorems -/

/-- `strLower` maps nonempty strings to nonempty strings. -/
theorem strLower_ne_empty {s : String} (h : s ≠ "") : strLower s ≠ "" := by
  intro hc
  apply h
  have hdata : s.data.map Char.toLower = [] := by
    have := congrArg String.data hc
    simpa [strLower] using this
  have hnil : s.data = [] := by simpa using hdata
  cases s
  simp_all

/-- Every event emitted by `shippingEvents` is about that purchase's id. -/
theorem shippingEvents_itemId (previous : Option Item) (purchase : Item) :
    ∀ e ∈ shippingEvents previous purchase, e.itemId = purchase.item_id := by
  intro e he
  cases previous with
  | none =>
    simp [shippingEvents] at he
    simp [he, Event.itemId]
  | some prev =>
    simp only [shippingEvents] at he
    split_ifs at he <;> simp at he <;> simp [he, Event.itemId]

/-- Counting events in a `flatMap` of per-element event lists. -/
theorem count_flatMap (f : Item → List Event) (l : List Item) (e : Event) :
    (l.flatMap f).count e = (l.map (fun a => (f a).count e)).sum := by
  induction l with
  | nil => simp
  | cons a l ih => simp [List.count_append, ih]

/-- If every event of `f a` is about `a.item_id`, the current list has
duplicate-free ids, and `p ∈ l`, then counting an event about `p.item_id` in
the flattened output reduces to counting it in `f p`. -/
theorem count_flatMap_nodup (f : Item → List Event)
    (hids : ∀ a : Item, ∀ e ∈ f a, e.itemId = a.item_id)
    {l : List Item} (hnodup : (l.map Item.item_id).Nodup)
    {p : Item} (hmem : p ∈ l) {e : Event} (he : e.itemId = p.item_id) :
    (l.flatMap f).count e = (f p).count e := by
  induction l with
  | nil => cases hmem
  | cons a l ih =>
    simp only [List.map_cons, List.nodup_cons] at hnodup
    rcases hnodup with ⟨hnotin, hnodup⟩
    rcases List.mem_cons.mp hmem with rfl | hmem'
    · have hzero : (l.flatMap f).count e = 0 := by
        rw [List.count_eq_zero]
        intro hein
        rcases List.mem_flatMap.mp hein with ⟨q, hq, heq⟩
        have hq' : q.item_id = p.item_id := by rw [← hids q e heq, he]
        apply hnotin
        rw [← hq']
        exact List.mem_map_of_mem Item.item_id hq
      simp [List.count_append, hzero]
    · have hzero : (f a).count e = 0 := by
        rw [List.count_eq_zero]
        intro hein
        have hpa : p.item_id = a.item_id := by rw [← he, hids a e hein]
        apply hnotin
        rw [← hpa]
        exact List.mem_map_of_mem Item.item_id hmem'
      simp [List.count_append, hzero, ih hnodup hmem']

/-- Count of `ebay_item_shipped` emissions for one previously-seen purchase. -/
theorem count_shippingEvents_shipped (prevItem purchase : Item) :
    (shippingEvents (some prevItem) purchase).count
        (Event.itemShipped purchase.item_id) =
      if purchase.shipping_status = some "shipped"
          ∧ prevItem.shipping_status ≠ some "shipped" then 1 else 0 := by
  simp only [shippingEvents]
  split_ifs with h1 h2 h3 h4 h5 <;> simp_all

/-- Count of `ebay_item_delivered` emissions for one previously-seen purchase. -/
theorem count_shippingEvents_delivered (prevItem purchase : Item) :
    (shippingEvents (some prevItem) purchase).count
        (Event.itemDelivered purchase.item_id) =
      if purchase.shipping_status = some "delivered"
          ∧ prevItem.shipping_status ≠ some "delivered" then 1 else 0 := by
  simp only [shippingEvents]
  split_ifs with h1 h2 h3 h4 h5 <;> simp_all

/-- C3 counterexample: the regression `delivered -> shipped` does emit an
event — the claim asserts that any backward status move emits nothing, but
`_check_shipping_changes` only tests `current == "shipped" and
previous != "shipped"`, which the pair (previous `delivered`, current
`shipped`) satisfies, so `ebay_item_shipped` fires. -/
theorem c3_counterexample :
    checkShippingChanges [{ item_id := "A", shipping_status := some "delivered" }]
        [{ item_id := "A", shipping_status := some "shipped" }] ≠ [] ∧
      checkShippingChanges [{ item_id := "A", shipping_status := some "delivered" }]
        [{ item_id := "A", shipping_status := some "shipped" }] =
        [Event.itemShipped "A"] := by
  constructor <;> decide

/-- C3 (amended): for every purchase present in both snapshots,
`ebay_item_shipped` fires exactly once when the current status is `shipped`
and the previous status differs (including the regression
`delivered -> shipped`), `ebay_item_delivered` fires exactly once when the
current status is `delivered` and the previous status differs, and nothing
fires otherwise — in particular a regression into any status other than
`shipped`/`delivered` (such as `shipped -> pending`) emits no event. -/
theorem c3_shipping_transitions (prevData current : List Item)
    (hnodup : (current.map Item.item_id).Nodup)
    (purchase prevItem : Item) (hmem : purchase ∈ current)
    (hprev : findPrev prevData purchase.item_id = some prevItem) :
    ((checkShippingChanges prevData current).count
        (Event.itemShipped purchase.item_id) =
      if purchase.shipping_status = some "shipped"
          ∧ prevItem.shipping_status ≠ some "shipped" then 1 else 0)
    ∧ ((checkShippingChanges prevData current).count
        (Event.itemDelivered purchase.item_id) =
      if purchase.shipping_status = some "delivered"
          ∧ prevItem.shipping_status ≠ some "delivered" then 1 else 0) := by
  have hids : ∀ a : Item,
      ∀ e ∈ shippingEvents (findPrev prevData a.item_id) a, e.itemId = a.item_id :=
    fun a => shippingEvents_itemId _ a
  constructor
  · rw [checkShippingChanges,
      count_flatMap_nodup _ hids hnodup hmem (by simp [Event.itemId]), hprev]
    exact count_shippingEvents_shipped prevItem purchase
  · rw [checkShippingChanges,
      count_flatMap_nodup _ hids hnodup hmem (by simp [Event.itemId]), hprev]
    exact count_shippingEvents_delivered prevItem purchase

/-- Witness for the amended C3 at a concrete `pending -> shipped` transition. -/
theorem c3_shipping_transitions_witness :
    (checkShippingChanges [{ item_id := "B", shipping_status := some "pending" }]
        [{ item_id := "B", shipping_status := some "shipped" }]).count
      (Event.itemShipped "B") = 1 := by
  have h := (c3_shipping_transitions
    [{ item_id := "B", shipping_status := some "pending" }]
    [{ item_id := "B", shipping_status := some "shipped" }]
    (by decide)
    { item_id := "B", shipping_status := some "shipped" }
    { item_id := "B", shipping_status := some "pending" }
    (by decide) (by decide)).1
  rw [if_pos (by decide)] at h
  exact h

/-- C10: a purchase whose id is absent from the previous snapshot fires
exactly one `ebay_new_purchase` and — because the loop `continue`s before the
shipping checks — no `ebay_item_shipped` or `ebay_item_delivered`, whatever
its current shipping status. -/
theorem c10_new_purchase (prevData current : List Item)
    (hnodup : (current.map Item.item_id).Nodup)
    (purchase : Item) (hmem : purchase ∈ current)
    (hnew : findPrev prevData purchase.item_id = none) :
    ((checkShippingChanges prevData current).count
        (Event.newPurchase purchase.item_id) = 1)
    ∧ ((checkShippingChanges prevData current).count
        (Event.itemShipped purchase.item_id) = 0)
    ∧ ((checkShippingChanges prevData current).count
        (Event.itemDelivered purchase.item_id) = 0) := by
  have hids : ∀ a : Item,
      ∀ e ∈ shippingEvents (findPrev prevData a.item_id) a, e.itemId = a.item_id :=
    fun a => shippingEvents_itemId _ a
  refine ⟨?_, ?_, ?_⟩ <;>
  · rw [checkShippingChanges,
      count_flatMap_nodup _ hids hnodup hmem (by simp [Event.itemId]), hnew]
    simp [shippingEvents]

/-- Witness for C10: a never-seen purchase that is already `delivered` fires
only `ebay_new_purchase`. -/
theorem c10_new_purchase_witness :
    ((checkShippingChanges [] [{ item_id := "C", shipping_status := some "delivered" }]).count
        (Event.newPurchase "C") = 1)
    ∧ ((checkShippingChanges [] [{ item_id := "C", shipping_status := some "delivered" }]).count
        (Event.itemShipped "C") = 0)
    ∧ ((checkShippingChanges [] [{ item_id := "C", shipping_status := some "delivered" }]).count
        (Event.itemDelivered "C") = 0) :=
  c10_new_purchase [] [{ item_id := "C", shipping_status := some "delivered" }]
    (by decide) { item_id := "C", shipping_status := some "delivered" }
    (by decide) (by decide)

/-- Every event emitted by `bidTransitionEvents` is about that bid's id. -/
theorem bidTransitionEvents_itemId (prevData : List Item) (bid : Item) :
    ∀ e ∈ bidTransitionEvents prevData bid, e.itemId = bid.item_id := by
  intro e he
  rcases h : findPrev prevData bid.item_id with _ | previous
  · simp [bidTransitionEvents, h] at he
  · simp only [bidTransitionEvents, h] at he
    split_ifs at he <;> simp at he <;> simp [he, Event.itemId]

/-- `_check_ending_soon` fires either nothing or a single
`ebay_auction_ending_soon` for the examined bid. -/
theorem checkEndingSoon_shape (env : BidsEnv) (lf : List (String × Int))
    (bid : Item) :
    (checkEndingSoon env lf bid).1 = [] ∨
      ∃ m, (checkEndingSoon env lf bid).1 =
        [Event.auctionEndingSoon bid.item_id m] := by
  simp only [checkEndingSoon]
  repeat' split
  all_goals first | (left; rfl) | (right; exact ⟨_, rfl⟩)

/-- Win/loss resolution fires nothing, `ebay_auction_won`, or
`ebay_auction_lost` — always for the vanished item's id. -/
theorem resolveEndedAuction_shape (env : BidsEnv) (previous : Item) :
    resolveEndedAuction env previous = [] ∨
      resolveEndedAuction env previous = [Event.auctionWon previous.item_id] ∨
      resolveEndedAuction env previous = [Event.auctionLost previous.item_id] := by
  simp only [resolveEndedAuction]
  repeat' split
  all_goals first | (left; rfl) | (right; left; rfl) | (right; right; rfl)

/-- Unfolding the per-bid loop one step. -/
theorem checkBidsLoop_cons (env : BidsEnv) (prevData : List Item) (bid : Item)
    (rest : List Item) (lf : List (String × Int)) :
    checkBidsLoop env prevData (bid :: rest) lf =
      (bidTransitionEvents prevData bid ++ (checkEndingSoon env lf bid).1 ++
        (checkBidsLoop env prevData rest (checkEndingSoon env lf bid).2).1,
       (checkBidsLoop env prevData rest (checkEndingSoon env lf bid).2).2) := rfl

/-- The events of `_check_bid_changes`: the per-bid loop's events followed by
the win/loss events of the vanished items. -/
theorem checkBidChanges_events (env : BidsEnv) (prevData current : List Item)
    (lf : List (String × Int)) :
    (checkBidChanges env prevData current lf).1 =
      (checkBidsLoop env prevData current lf).1 ++
        (prevData.filter
          (fun p => !((current.map Item.item_id).contains p.item_id))).flatMap
          (resolveEndedAuction env) := rfl

/-- For an event that is not `ebay_auction_ending_soon`, the loop's count
reduces to the count over the per-bid transition events. -/
theorem count_checkBidsLoop_transition (env : BidsEnv) (prevData : List Item)
    (bids : List Item) (lf : List (String × Int)) (e : Event)
    (he : ∀ i m, e ≠ Event.auctionEndingSoon i m) :
    ((checkBidsLoop env prevData bids lf).1).count e =
      (bids.flatMap (bidTransitionEvents prevData)).count e := by
  induction bids generalizing lf with
  | nil => rfl
  | cons bid rest ih =>
    rw [checkBidsLoop_cons]
    have hsev : ((checkEndingSoon env lf bid).1).count e = 0 := by
      rw [List.count_eq_zero]
      intro hmem
      rcases checkEndingSoon_shape env lf bid with h | ⟨m, h⟩ <;> rw [h] at hmem
      · simp at hmem
      · simp at hmem
        exact he _ _ hmem
    simp [List.count_append, hsev, ih]

/-- For an event that is neither `ebay_auction_won` nor `ebay_auction_lost`,
the vanished-item resolution contributes no occurrence. -/
theorem count_resolveEnded_other (env : BidsEnv) (items : List Item) (e : Event)
    (hwon : ∀ i, e ≠ Event.auctionWon i) (hlost : ∀ i, e ≠ Event.auctionLost i) :
    (items.flatMap (resolveEndedAuction env)).count e = 0 := by
  rw [List.count_eq_zero]
  intro hmem
  rcases List.mem_flatMap.mp hmem with ⟨q, hq, he⟩
  rcases resolveEndedAuction_shape env q with h | h | h <;> rw [h] at he <;>
    simp at he
  · exact hwon _ he
  · exact hlost _ he

/-- Count of `ebay_became_high_bidder` for one previously-seen bid. -/
theorem count_bidTransition_became (prevData : List Item) (bid prevItem : Item)
    (hprev : findPrev prevData bid.item_id = some prevItem) :
    (bidTransitionEvents prevData bid).count (Event.becameHighBidder bid.item_id) =
      if bid.is_high_bidder.getD false = true
          ∧ prevItem.is_high_bidder.getD false = false then 1 else 0 := by
  simp only [bidTransitionEvents, hprev]
  split_ifs with h1 h2 h3 h4 h5 <;> simp_all

/-- Count of `ebay_outbid` for one previously-seen bid. -/
theorem count_bidTransition_outbid (prevData : List Item) (bid prevItem : Item)
    (hprev : findPrev prevData bid.item_id = some prevItem) :
    (bidTransitionEvents prevData bid).count (Event.outbid bid.item_id) =
      if bid.is_high_bidder.getD false = false
          ∧ prevItem.is_high_bidder.getD false = true then 1 else 0 := by
  simp only [bidTransitionEvents, hprev]
  split_ifs with h1 h2 h3 h4 h5 <;> simp_all

/-- C4: for every bid present in both the previous snapshot and the current
fetch, `_check_bid_changes` fires exactly one `ebay_became_high_bidder` when
the `is_high_bidder` flag goes `false -> true`, exactly one `ebay_outbid`
when it goes `true -> false`, and neither event otherwise. -/
theorem c4_high_bidder_transitions (env : BidsEnv) (prevData current : List Item)
    (lf : List (String × Int)) (hnodup : (current.map Item.item_id).Nodup)
    (bid prevItem : Item) (hmem : bid ∈ current)
    (hprev : findPrev prevData bid.item_id = some prevItem) :
    (((checkBidChanges env prevData current lf).1).count
        (Event.becameHighBidder bid.item_id) =
      if bid.is_high_bidder.getD false = true
          ∧ prevItem.is_high_bidder.getD false = false then 1 else 0)
    ∧ (((checkBidChanges env prevData current lf).1).count
        (Event.outbid bid.item_id) =
      if bid.is_high_bidder.getD false = false
          ∧ prevItem.is_high_bidder.getD false = true then 1 else 0) := by
  constructor
  · rw [checkBidChanges_events, List.count_append,
      count_checkBidsLoop_transition env prevData current lf _ (by intro i m h; cases h),
      count_resolveEnded_other env _ _ (by intro i h; cases h) (by intro i h; cases h),
      count_flatMap_nodup _ (fun a => bidTransitionEvents_itemId prevData a) hnodup hmem
        (by simp [Event.itemId]),
      count_bidTransition_became prevData bid prevItem hprev]
    exact Nat.add_zero _
  · rw [checkBidChanges_events, List.count_append,
      count_checkBidsLoop_transition env prevData current lf _ (by intro i m h; cases h),
      count_resolveEnded_other env _ _ (by intro i h; cases h) (by intro i h; cases h),
      count_flatMap_nodup _ (fun a => bidTransitionEvents_itemId prevData a) hnodup hmem
        (by simp [Event.itemId]),
      count_bidTransition_outbid prevData bid prevItem hprev]
    exact Nat.add_zero _

/-- Witness for C4 at the claim's own instance: prior `itemA` with
`is_high_bidder = false`, current `itemA` with `is_high_bidder = true`. -/
theorem c4_high_bidder_transitions_witness :
    (((checkBidChanges
        { lookup := fun _ => none, ebayUsername := none,
          parse := fun _ => none, now := 0, dtMax := 0 }
        [{ item_id := "itemA", is_high_bidder := some false }]
        [{ item_id := "itemA", is_high_bidder := some true }] []).1).count
      (Event.becameHighBidder "itemA") = 1)
    ∧ (((checkBidChanges
        { lookup := fun _ => none, ebayUsername := none,
          parse := fun _ => none, now := 0, dtMax := 0 }
        [{ item_id := "itemA", is_high_bidder := some false }]
        [{ item_id := "itemA", is_high_bidder := some true }] []).1).count
      (Event.outbid "itemA") = 0) := by
  have h := c4_high_bidder_transitions
    { lookup := fun _ => none, ebayUsername := none,
      parse := fun _ => none, now := 0, dtMax := 0 }
    [{ item_id := "itemA", is_high_bidder := some false }]
    [{ item_id := "itemA", is_high_bidder := some true }] []
    (by decide)
    { item_id := "itemA", is_high_bidder := some true }
    { item_id := "itemA", is_high_bidder := some false }
    (by decide) (by decide)
  constructor
  · have h1 := h.1
    rw [if_pos (by decide)] at h1
    exact h1
  · have h2 := h.2
    rw [if_neg (by decide)] at h2
    exact h2

/-- C1: for an item present in the previous snapshot but absent from the
current bids fetch, the win/loss decision follows the precedence
authoritative > cached-fallback > silence-on-still-active.  Given a resolved,
nonempty account identity: a successful `get_item` lookup reporting a terminal
status (`Completed`/`Ended`) fires exactly one event, `ebay_auction_won` iff
the reported high bidder equals the account identity case-insensitively;
a successful lookup reporting any other (still active) status fires nothing,
regardless of the cached flag; a failed lookup fires exactly one event decided
by the cached `is_high_bidder` flag. -/
theorem c1_ended_auction_precedence (env : BidsEnv) (previous : Item)
    (u : String) (hu : env.ebayUsername = some u) (hne : u ≠ "") :
    (∀ finalItem, env.lookup previous.item_id = some finalItem →
      (((finalItem.listing_status.getD "Unknown" = "Completed" ∨
          finalItem.listing_status.getD "Unknown" = "Ended") →
        resolveEndedAuction env previous =
          (if strLower (finalItem.high_bidder_username.getD "") = strLower u
           then [Event.auctionWon previous.item_id]
           else [Event.auctionLost previous.item_id]))
       ∧ ((finalItem.listing_status.getD "Unknown" ≠ "Completed" ∧
           finalItem.listing_status.getD "Unknown" ≠ "Ended") →
          resolveEndedAuction env previous = [])))
    ∧ (env.lookup previous.item_id = none →
        resolveEndedAuction env previous =
          (if previous.is_high_bidder.getD false = true
           then [Event.auctionWon previous.item_id]
           else [Event.auctionLost previous.item_id])) := by
  constructor
  · intro finalItem hlook
    constructor
    · intro hterm
      have hbterm : (finalItem.listing_status.getD "Unknown" == "Completed" ||
          finalItem.listing_status.getD "Unknown" == "Ended") = true := by
        rcases hterm with h | h <;> simp [h]
      by_cases hmatch :
          strLower (finalItem.high_bidder_username.getD "") = strLower u
      · have hhb : finalItem.high_bidder_username.getD "" ≠ "" := by
          intro h0
          have h1 : strLower u = "" := by rw [← hmatch, h0]; decide
          exact strLower_ne_empty hne h1
        simp [resolveEndedAuction, hlook, hu, hbterm, hmatch, hhb, hne]
      · simp [resolveEndedAuction, hlook, hu, hbterm, hmatch]
    · intro hact
      simp [resolveEndedAuction, hlook, hact.1, hact.2]
  · intro hlook
    by_cases h : previous.is_high_bidder.getD false = true <;>
      simp [resolveEndedAuction, hlook, h]

/-- Witness for C1: lookup reports a `Completed` auction whose high bidder
`Alice` matches the resolved account identity `alice` case-insensitively, so
`ebay_auction_won` fires. -/
theorem c1_ended_auction_precedence_witness :
    resolveEndedAuction
      { lookup := fun _ => some { item_id := "A", listing_status := some "Completed",
                                  high_bidder_username := some "Alice" },
        ebayUsername := some "alice", parse := fun _ => none, now := 0, dtMax := 0 }
      { item_id := "A", is_high_bidder := some false } =
      [Event.auctionWon "A"] := by
  have h := ((c1_ended_auction_precedence
    { lookup := fun _ => some { item_id := "A", listing_status := some "Completed",
                                high_bidder_username := some "Alice" },
      ebayUsername := some "alice", parse := fun _ => none, now := 0, dtMax := 0 }
    { item_id := "A", is_high_bidder := some false }
    "alice" rfl (by decide)).1
    { item_id := "A", listing_status := some "Completed",
      high_bidder_username := some "Alice" } rfl).1 (Or.inl (by decide))
  rw [if_pos (by decide)] at h
  exact h

/-- C5: a bids poll cycle never partially updates state — a failed fetch
surfaces the error, computes no diff, emits no events, and leaves the
in-memory snapshot, the persisted store and the ending-soon bookkeeping
exactly as the last completed cycle left them; a successful cycle replaces
the previous snapshot wholesale with the fetch result, emits exactly the
diff's events, and returns the bids sorted by end time. -/
theorem c5_cycle_atomicity (env : BidsEnv) (fetchResult : Except Unit (List Item))
    (saveOk : Bool) (s : BidsState) :
    (∀ e, fetchResult = .error e →
      bidsUpdateData env fetchResult saveOk s = (.error e, s, []))
    ∧ (∀ bids, fetchResult = .ok bids →
        ((bidsUpdateData env fetchResult saveOk s).2.1.previousData = bids
         ∧ (bidsUpdateData env fetchResult saveOk s).2.2 =
             (checkBidChanges env s.previousData bids s.lastFired).1
         ∧ (bidsUpdateData env fetchResult saveOk s).1 =
             .ok (sortByEndTime env.parse env.dtMax bids))) := by
  constructor
  · rintro e rfl
    rfl
  · rintro bids rfl
    exact ⟨rfl, rfl, rfl⟩

/-- Witness for C5: a failed fetch leaves a concrete nonempty state untouched,
and a successful empty fetch replaces the snapshot. -/
theorem c5_cycle_atomicity_witness :
    (bidsUpdateData
        { lookup := fun _ => none, ebayUsername := none,
          parse := fun _ => none, now := 0, dtMax := 0 }
        (.error ()) true
        { previousData := [{ item_id := "X" }], stored := some [{ item_id := "X" }],
          lastFired := [("X", 7)] } =
      (.error (),
       { previousData := [{ item_id := "X" }], stored := some [{ item_id := "X" }],
         lastFired := [("X", 7)] }, []))
    ∧ (bidsUpdateData
        { lookup := fun _ => none, ebayUsername := none,
          parse := fun _ => none, now := 0, dtMax := 0 }
        (.ok []) true
        { previousData := [], stored := none, lastFired := [] }).2.1.previousData = [] := by
  constructor
  · exact (c5_cycle_atomicity
      { lookup := fun _ => none, ebayUsername := none,
        parse := fun _ => none, now := 0, dtMax := 0 }
      (.error ()) true
      { previousData := [{ item_id := "X" }], stored := some [{ item_id := "X" }],
        lastFired := [("X", 7)] }).1 () rfl
  · exact ((c5_cycle_atomicity
      { lookup := fun _ => none, ebayUsername := none,
        parse := fun _ => none, now := 0, dtMax := 0 }
      (.ok []) true
      { previousData := [], stored := none, lastFired := [] }).2 [] rfl).1

/-- C7: `_search_items_browse` fails softly — a missing OAuth token, a raised
transport exception, a non-200 status, a malformed JSON body, or an `errors`
array in the response each yield an empty result list, never an exception to
the caller (the outer handler reduces every raised exception to `[]`). -/
theorem c7_search_soft_fail (w : SearchWorld) :
    (w.token = none → searchItemsBrowse w = [])
    ∧ (w.requestRaises = true → searchItemsBrowse w = [])
    ∧ (w.status ≠ 200 → searchItemsBrowse w = [])
    ∧ (w.json = none → searchItemsBrowse w = [])
    ∧ (∀ data, w.json = some data → data.errors.getD [] ≠ [] →
        searchItemsBrowse w = []) := by
  obtain ⟨tok, raises, status, json⟩ := w
  refine ⟨?_, ?_, ?_, ?_, ?_⟩
  · intro h
    simp only at h
    simp [searchItemsBrowse, searchItemsBrowseCore, h]
  · intro h
    simp only at h
    cases tok <;> simp [searchItemsBrowse, searchItemsBrowseCore, h]
  · intro h
    simp only at h
    have hs : (status != 200) = true := by simpa using h
    cases tok <;> cases raises <;>
      simp [searchItemsBrowse, searchItemsBrowseCore, hs]
  · intro h
    simp only at h
    cases tok <;> cases raises <;>
      simp [searchItemsBrowse, searchItemsBrowseCore, h]
  · intro data hjson herr
    simp only at hjson
    have he : (data.errors.getD [] != []) = true := by simpa using herr
    have hes : data.errors.isSome = true := by
      rcases hd : data.errors with _ | es
      · rw [hd] at herr; simp at herr
      · simp
    cases tok <;> cases raises <;>
      simp [searchItemsBrowse, searchItemsBrowseCore, hjson, he, hes]

/-- Witness for C7: a concrete 500-status world yields an empty result. -/
theorem c7_search_soft_fail_witness :
    searchItemsBrowse { token := some "tok", requestRaises := false,
                        status := 500, json := none } = [] :=
  (c7_search_soft_fail
    { token := some "tok", requestRaises := false,
      status := 500, json := none }).2.2.1 (by decide)

/-- C8: for a bid with a parsable end time, `_check_ending_soon` fires only
when strictly more than 0 and at most 900 seconds (15 minutes) remain; a bid
with no or an unparsable end time fires nothing; and once an event fires, a
second evaluation of the same bid no more than 600 seconds later (inside the
10-minute cooldown) fires nothing. -/
theorem c8_ending_soon (env env2 : BidsEnv) (lf : List (String × Int))
    (bid : Item) :
    (bid.end_time = none → (checkEndingSoon env lf bid).1 = [])
    ∧ (∀ s, bid.end_time = some s → env.parse s = none →
        (checkEndingSoon env lf bid).1 = [])
    ∧ (∀ s t, bid.end_time = some s → env.parse s = some t →
        (checkEndingSoon env lf bid).1 ≠ [] →
        0 < t - env.now ∧ t - env.now ≤ 900)
    ∧ ((checkEndingSoon env lf bid).1 ≠ [] →
        env2.parse = env.parse →
        env2.now - env.now ≤ 600 →
        (checkEndingSoon env2 ((checkEndingSoon env lf bid).2) bid).1 = []) := by
  refine ⟨?_, ?_, ?_, ?_⟩
  · intro h
    simp [checkEndingSoon, h]
  · intro s hs hp
    simp [checkEndingSoon, hs, hp]
  · intro s t hs hp hne
    constructor
    · by_contra hlt
      apply hne
      have ha : ¬(env.now < t) := by omega
      simp [checkEndingSoon, hs, hp, ha]
    · by_contra hgt
      apply hne
      have hb : ¬(t ≤ 900 + env.now) := by omega
      simp [checkEndingSoon, hs, hp, hb]
  · intro hne hparse hcool
    rcases h1 : bid.end_time with _ | s
    · exact absurd (by simp [checkEndingSoon, h1]) hne
    rcases h2 : env.parse s with _ | t
    · exact absurd (by simp [checkEndingSoon, h1, h2]) hne
    by_cases hwa : env.now < t
    · by_cases hwb : t ≤ 900 + env.now
      · have hsnd : (checkEndingSoon env lf bid).2 = (bid.item_id, env.now) :: lf := by
          rcases h3 : lf.lookup bid.item_id with _ | last
          · simp [checkEndingSoon, h1, h2, h3, hwa, hwb]
          · by_cases h4 : 600 < env.now - last
            · simp [checkEndingSoon, h1, h2, h3, h4, hwa, hwb]
            · exact absurd (by simp [checkEndingSoon, h1, h2, h3, h4, hwa, hwb]) hne
        rw [hsnd]
        simp only [checkEndingSoon, h1, hparse, h2]
        by_cases hw2a : env2.now < t
        · by_cases hw2b : t ≤ 900 + env2.now
          · have hnc : ¬(600 < env2.now - env.now) := by omega
            simp [hw2a, hw2b, List.lookup, hnc]
          · simp [hw2b]
        · simp [hw2a]
      · exact absurd (by simp [checkEndingSoon, h1, h2, hwb]) hne
    · exact absurd (by simp [checkEndingSoon, h1, h2, hwa]) hne

/-- Witness for C8: end time 500 seconds ahead fires within the window, and a
re-evaluation 300 seconds later (inside the cooldown) fires nothing. -/
theorem c8_ending_soon_witness :
    ((0:Int) < 500 - 0 ∧ (500:Int) - 0 ≤ 900)
    ∧ (checkEndingSoon
        { lookup := fun _ => none, ebayUsername := none,
          parse := fun s => if s == "E" then some 500 else none,
          now := 300, dtMax := 0 }
        ((checkEndingSoon
          { lookup := fun _ => none, ebayUsername := none,
            parse := fun s => if s == "E" then some 500 else none,
            now := 0, dtMax := 0 } [] { item_id := "A", end_time := some "E" }).2)
        { item_id := "A", end_time := some "E" }).1 = [] := by
  constructor
  · exact (c8_ending_soon
      { lookup := fun _ => none, ebayUsername := none,
        parse := fun s => if s == "E" then some 500 else none,
        now := 0, dtMax := 0 }
      { lookup := fun _ => none, ebayUsername := none,
        parse := fun s => if s == "E" then some 500 else none,
        now := 300, dtMax := 0 } [] { item_id := "A", end_time := some "E" }).2.2.1
      "E" 500 rfl (by decide) (by decide)
  · exact (c8_ending_soon
      { lookup := fun _ => none, ebayUsername := none,
        parse := fun s => if s == "E" then some 500 else none,
        now := 0, dtMax := 0 }
      { lookup := fun _ => none, ebayUsername := none,
        parse := fun s => if s == "E" then some 500 else none,
        now := 300, dtMax := 0 } [] { item_id := "A", end_time := some "E" }).2.2.2
      (by decide) rfl (by decide)

/-- `_clean_old_items` is the retention filter, whatever the input shape. -/
theorem cleanOldItems_eq (parse : String → Option Int) (now : Int)
    (data : List (String × Item)) :
    cleanOldItems parse now data = data.filter (fun entry =>
      match ageTimestamp entry.2 with
      | none => true
      | some s =>
        match parse s with
        | none => true
        | some itemTime =>
          decide (now - STATE_RETENTION_DAYS * secondsPerDay < itemTime)) := by
  rcases data with _ | ⟨a, rest⟩ <;> rfl

/-- C9: loading prior state prunes entries whose age timestamp parses to a
time at or before the 60-day cutoff; the timestamp is the `end_time` field
when truthy, else `updated_at`; entries with no truthy timestamp or an
unparsable one are retained; and pruning only ever removes entries — it never
adds or alters them (the result is a sublist of the input). -/
theorem c9_retention_prune (parse : String → Option Int) (now : Int)
    (data : List (String × Item)) :
    (cleanOldItems parse now data).Sublist data
    ∧ (∀ e ∈ data, ageTimestamp e.2 = none → e ∈ cleanOldItems parse now data)
    ∧ (∀ e ∈ data, ∀ s, ageTimestamp e.2 = some s → parse s = none →
        e ∈ cleanOldItems parse now data)
    ∧ (∀ e ∈ data, ∀ s t, ageTimestamp e.2 = some s → parse s = some t →
        (e ∈ cleanOldItems parse now data ↔
          now - STATE_RETENTION_DAYS * secondsPerDay < t))
    ∧ (∀ item : Item, ∀ s, truthyStr item.end_time = some s →
        ageTimestamp item = some s)
    ∧ (∀ item : Item, truthyStr item.end_time = none →
        ageTimestamp item = truthyStr item.updated_at) := by
  refine ⟨?_, ?_, ?_, ?_, ?_, ?_⟩
  · rw [cleanOldItems_eq]
    exact List.filter_sublist _
  · intro e he h
    rw [cleanOldItems_eq, List.mem_filter]
    exact ⟨he, by simp [h]⟩
  · intro e he s ha hp
    rw [cleanOldItems_eq, List.mem_filter]
    exact ⟨he, by simp [ha, hp]⟩
  · intro e he s t ha hp
    rw [cleanOldItems_eq, List.mem_filter]
    constructor
    · rintro ⟨_, hpred⟩
      simpa [ha, hp] using hpred
    · intro hlt
      exact ⟨he, by simp [ha, hp, hlt]⟩
  · intro item s h
    simp [ageTimestamp, h]
  · intro item h
    simp [ageTimestamp, h]

/-- Witness for C9: an entry whose end time parses to epoch 0 is pruned when
loaded at a `now` far beyond the 60-day window. -/
theorem c9_retention_prune_witness :
    ("X", ({ item_id := "X", end_time := some "T" } : Item)) ∉
      cleanOldItems (fun s => if s == "T" then some 0 else none) 10000000
        [("X", { item_id := "X", end_time := some "T" })] := by
  intro hmem
  have h := ((c9_retention_prune (fun s => if s == "T" then some 0 else none)
    10000000 [("X", { item_id := "X", end_time := some "T" })]).2.2.2.1
    ("X", { item_id := "X", end_time := some "T" }) (by simp) "T" 0
    (by decide) (by decide)).mp hmem
  simp [STATE_RETENTION_DAYS, secondsPerDay] at h

/-- An item with a truthy, parsable `end_time` has a key below the sentinel. -/
theorem endTimeKey_lt_of_parsable (parse : String → Option Int) (dtMax : Int)
    (hmax : ∀ s t, parse s = some t → t < dtMax) (item : Item)
    (h : ∃ s t, item.end_time = some s ∧ s ≠ "" ∧ parse s = some t) :
    endTimeKey parse dtMax item < dtMax := by
  rcases h with ⟨s, t, hs, hne, hp⟩
  have hb : (s == "") = false := by simpa using hne
  simp [endTimeKey, hs, hb, hp]
  exact hmax s t hp

/-- An item without a truthy, parsable `end_time` gets the sentinel key. -/
theorem endTimeKey_of_unparsable (parse : String → Option Int) (dtMax : Int)
    (item : Item)
    (h : ¬∃ s t, item.end_time = some s ∧ s ≠ "" ∧ parse s = some t) :
    endTimeKey parse dtMax item = dtMax := by
  push_neg at h
  rcases hs : item.end_time with _ | s
  · simp [endTimeKey, hs]
  · by_cases hne : s = ""
    · simp [endTimeKey, hs, hne]
    · have hb : (s == "") = false := by simpa using hne
      rcases hp : parse s with _ | t
      · simp [endTimeKey, hs, hb, hp]
      · exact absurd hp (h s t hs hne)

/-- A purchase with a truthy, parsable timestamp has a key above the sentinel. -/
theorem purchaseTimeKey_gt_of_parsable (parse : String → Option Int) (dtMin : Int)
    (hmin : ∀ s t, parse s = some t → dtMin < t) (item : Item)
    (h : ∃ s t, purchaseTimeStr item = some s ∧ parse s = some t) :
    dtMin < purchaseTimeKey parse dtMin item := by
  rcases h with ⟨s, t, hs, hp⟩
  simp [purchaseTimeKey, hs, hp]
  exact hmin s t hp

/-- A purchase without a truthy, parsable timestamp gets the sentinel key. -/
theorem purchaseTimeKey_of_unparsable (parse : String → Option Int) (dtMin : Int)
    (item : Item)
    (h : ¬∃ s t, purchaseTimeStr item = some s ∧ parse s = some t) :
    purchaseTimeKey parse dtMin item = dtMin := by
  push_neg at h
  rcases hs : purchaseTimeStr item with _ | s
  · simp [purchaseTimeKey, hs]
  · rcases hp : parse s with _ | t
    · simp [purchaseTimeKey, hs, hp]
    · exact absurd hp (h s t hs)

/-- C6: within one cycle, `_sort_by_end_time` (used for bids, watchlist and
search results) returns a permutation of its input sorted soonest-ending
first, with every item lacking a truthy, parsable end time placed after all
items with one; `_sort_by_purchase_date` returns a permutation sorted most
recent first, with every item lacking a truthy, parsable timestamp placed
last.  The hypotheses say the abstract time parser stays strictly inside the
`datetime.min`/`datetime.max` sentinels, true of every realistic timestamp. -/
theorem c6_output_ordering (parse : String → Option Int) (dtMax dtMin : Int)
    (hmax : ∀ s t, parse s = some t → t < dtMax)
    (hmin : ∀ s t, parse s = some t → dtMin < t)
    (items purchases : List Item) :
    ((sortByEndTime parse dtMax items).Perm items
     ∧ (sortByEndTime parse dtMax items).Pairwise
         (fun a b => endTimeKey parse dtMax a ≤ endTimeKey parse dtMax b)
     ∧ (sortByEndTime parse dtMax items).Pairwise
         (fun a b => (∃ s t, b.end_time = some s ∧ s ≠ "" ∧ parse s = some t) →
           (∃ s t, a.end_time = some s ∧ s ≠ "" ∧ parse s = some t)))
    ∧ ((sortByPurchaseDate parse dtMin purchases).Perm purchases
     ∧ (sortByPurchaseDate parse dtMin purchases).Pairwise
         (fun a b => purchaseTimeKey parse dtMin b ≤ purchaseTimeKey parse dtMin a)
     ∧ (sortByPurchaseDate parse dtMin purchases).Pairwise
         (fun a b => (∃ s t, purchaseTimeStr b = some s ∧ parse s = some t) →
           (∃ s t, purchaseTimeStr a = some s ∧ parse s = some t))) := by
  have hpair1 : (sortByEndTime parse dtMax items).Pairwise
      (fun a b => endTimeKey parse dtMax a ≤ endTimeKey parse dtMax b) := by
    have h := @List.sorted_mergeSort Item
      (fun a b => decide (endTimeKey parse dtMax a ≤ endTimeKey parse dtMax b))
      (fun a b c hab hbc => by
        simp only [decide_eq_true_eq] at *
        omega)
      (fun a b => by
        simp only [Bool.or_eq_true, decide_eq_true_eq]
        omega)
      items
    exact h.imp (by simp)
  have hpair2 : (sortByPurchaseDate parse dtMin purchases).Pairwise
      (fun a b => purchaseTimeKey parse dtMin b ≤ purchaseTimeKey parse dtMin a) := by
    have h := @List.sorted_mergeSort Item
      (fun a b => decide (purchaseTimeKey parse dtMin b ≤ purchaseTimeKey parse dtMin a))
      (fun a b c hab hbc => by
        simp only [decide_eq_true_eq] at *
        omega)
      (fun a b => by
        simp only [Bool.or_eq_true, decide_eq_true_eq]
        omega)
      purchases
    exact h.imp (by simp)
  refine ⟨⟨List.mergeSort_perm items _, hpair1, ?_⟩,
          ⟨List.mergeSort_perm purchases _, hpair2, ?_⟩⟩
  · refine hpair1.imp ?_
    intro a b hab hb
    by_contra ha
    have h1 : endTimeKey parse dtMax a = dtMax :=
      endTimeKey_of_unparsable parse dtMax a ha
    have h2 : endTimeKey parse dtMax b < dtMax :=
      endTimeKey_lt_of_parsable parse dtMax hmax b hb
    omega
  · refine hpair2.imp ?_
    intro a b hab hb
    by_contra ha
    have h1 : purchaseTimeKey parse dtMin a = dtMin :=
      purchaseTimeKey_of_unparsable parse dtMin a ha
    have h2 : dtMin < purchaseTimeKey parse dtMin b :=
      purchaseTimeKey_gt_of_parsable parse dtMin hmin b hb
    omega

/-- Witness for C6 at a concrete parser and item lists with one parsable and
one missing end time. -/
theorem c6_output_ordering_witness :
    (sortByEndTime (fun s => if s == "t1" then some 1 else none) 1000000
      [{ item_id := "P" }, { item_id := "Q", end_time := some "t1" }]).Perm
      [{ item_id := "P" }, { item_id := "Q", end_time := some "t1" }] :=
  (c6_output_ordering (fun s => if s == "t1" then some 1 else none)
    1000000 (-1000000)
    (by
      intro s t h
      by_cases h1 : s == "t1" <;> simp [h1] at h
      omega)
    (by
      intro s t h
      by_cases h1 : s == "t1" <;> simp [h1] at h
      omega)
    [{ item_id := "P" }, { item_id := "Q", end_time := some "t1" }] []).1.1

/-- The retained seen-set never exceeds the 1000-id cap. -/
theorem updateSeen_length_le (prevIds : List String) (results : List Item) :
    (updateSeen prevIds results).length ≤ 1000 := by
  simp only [updateSeen]
  split
  · rename_i h
    rw [List.length_drop]
    omega
  · rename_i h
    omega

/-- 1001 pairwise-distinct item ids (the id of index `n` is `n` copies of
`a`), used to exercise the seen-set cap. -/
def bigIds : List String :=
  (List.range 1001).map (fun n => String.mk (List.replicate n 'a'))

/-- Search results carrying the 1001 distinct ids. -/
def bigItems : List Item := bigIds.map (fun i => { item_id := i })

/-- The 1001 ids are pairwise distinct. -/
theorem bigIds_nodup : bigIds.Nodup := by
  apply List.Nodup.map
  · intro m n h
    have h2 : List.replicate m 'a' = List.replicate n 'a' := congrArg String.data h
    simpa using congrArg List.length h2
  · exact List.nodup_range 1001

/-- C2 counterexample: on a first cycle returning 1001 distinct new items,
not every id is recorded in the seen-set afterwards — the update trims the
retained history to 1000 ids (coordinator.py 757-765), so the claim's
"all n item identifiers are recorded in the seen-set afterwards" fails at
n = 1001. -/
theorem c2_counterexample :
    ¬(∀ i ∈ bigIds, i ∈ updateSeen [] bigItems) := by
  intro hall
  have hsub : bigIds ⊆ updateSeen [] bigItems := fun i hi => hall i hi
  have hsp := (bigIds_nodup.subperm hsub).length_le
  have hlen : bigIds.length = 1001 := by simp [bigIds]
  have hle := updateSeen_length_le [] bigItems
  omega

/-- First-run event cap: with an empty prior set, the loop emits one event
per item until the count reaches 5. -/
theorem checkNewItemsGo_firstRun_length (results : List Item) :
    ∀ c : Nat, (checkNewItemsGo true [] c results).length =
      min results.length (5 - c) := by
  induction results with
  | nil => intro c; simp [checkNewItemsGo]
  | cons item rest ih =>
    intro c
    by_cases h : c ≥ 5
    · simp [checkNewItemsGo, h, ih]
    · simp [checkNewItemsGo, h, ih]
      omega

/-- On a first cycle within the cap, the whole current id set is recorded. -/
theorem updateSeen_nil (results : List Item)
    (hnodup : (results.map Item.item_id).Nodup) (hlen : results.length ≤ 1000) :
    updateSeen [] results = results.map Item.item_id := by
  have hded : (results.map Item.item_id).dedup = results.map Item.item_id :=
    List.dedup_eq_self.mpr hnodup
  have hfil : (results.map Item.item_id).filter
      (fun i => !([] : List String).contains i) = results.map Item.item_id :=
    List.filter_eq_self.mpr (fun a _ => rfl)
  have hlen2 : (results.map Item.item_id).length ≤ 1000 := by simpa using hlen
  simp only [updateSeen, hded, hfil, List.nil_append]
  rw [if_neg (by omega)]

/-- When every current item is already in the seen-set, the loop is silent. -/
theorem checkNewItemsGo_all_seen (firstRun : Bool) (seen : List String) :
    ∀ (c : Nat) (results : List Item),
      (∀ item ∈ results, seen.contains item.item_id = true) →
      checkNewItemsGo firstRun seen c results = [] := by
  intro c results
  induction results generalizing c with
  | nil => intro _; rfl
  | cons item rest ih =>
    intro h
    have h1 := h item (by simp)
    simp only [checkNewItemsGo, h1, if_true]
    exact ih _ (fun x hx => h x (by simp [hx]))

/-- On a non-first cycle (`previous_item_ids` nonempty) the loop is uncapped:
one event per not-yet-seen item, in result order. -/
theorem checkNewItems_not_first (prevIds : List String) (results : List Item)
    (hne : prevIds ≠ []) :
    checkNewItems prevIds results =
      (results.filter (fun it => !prevIds.contains it.item_id)).map
        (fun it => Event.newSearchResult it.item_id) := by
  have hfr : prevIds.isEmpty = false := by
    cases prevIds
    · simp at hne
    · rfl
  simp only [checkNewItems, hfr]
  suffices h : ∀ c, checkNewItemsGo false prevIds c results =
      (results.filter (fun it => !prevIds.contains it.item_id)).map
        (fun it => Event.newSearchResult it.item_id) from h 0
  induction results with
  | nil => intro c; rfl
  | cons item rest ih =>
    intro c
    by_cases hm : item.item_id ∈ prevIds
    · have h1 : prevIds.contains item.item_id = true := by simpa using hm
      simp [checkNewItemsGo, h1, hm, ih]
    · have h1 : prevIds.contains item.item_id = false := by simpa using hm
      simp [checkNewItemsGo, h1, hm, ih]

/-- Counting one id's event in a mapped event list. -/
theorem count_newSearchResult_map (l : List Item) (i : String) :
    ((l.map (fun it => Event.newSearchResult it.item_id)).count
        (Event.newSearchResult i)) = (l.map Item.item_id).count i := by
  induction l with
  | nil => rfl
  | cons a rest ih => simp [List.count_cons, ih]

/-- Filtering by a predicate on the id commutes with taking ids. -/
theorem map_filter_id (p : String → Bool) (l : List Item) :
    (l.filter (fun it => p it.item_id)).map Item.item_id =
      (l.map Item.item_id).filter p := by
  induction l with
  | nil => rfl
  | cons a rest ih =>
    by_cases h : p a.item_id = true <;> simp [h, ih]

/-- C2 (amended): on a first cycle (empty prior seen-set) returning `n ≤ 1000`
distinct items, exactly `min n 5` `ebay_new_search_result` events fire, yet
all `n` ids are recorded as seen, so an immediately repeated identical poll
fires nothing; on a cycle whose prior seen-set is nonempty, every item not in
the cumulative seen-set fires exactly one event with no cap.  (The amendment
restricts the first part to `n ≤ 1000`, the retained-history cap: beyond it
the seen-set is trimmed, as `c2_counterexample` shows at n = 1001.) -/
theorem c2_search_events (prevIds : List String) (results : List Item)
    (hnodup : (results.map Item.item_id).Nodup) :
    (prevIds = [] → results.length ≤ 1000 →
      ((checkNewItems [] results).length = min results.length 5
       ∧ updateSeen [] results = results.map Item.item_id
       ∧ checkNewItems (updateSeen [] results) results = []))
    ∧ (prevIds ≠ [] →
        (checkNewItems prevIds results =
          (results.filter (fun it => !prevIds.contains it.item_id)).map
            (fun it => Event.newSearchResult it.item_id))
        ∧ (∀ item ∈ results, prevIds.contains item.item_id = false →
            (checkNewItems prevIds results).count
              (Event.newSearchResult item.item_id) = 1)) := by
  constructor
  · rintro rfl hlen
    refine ⟨?_, updateSeen_nil results hnodup hlen, ?_⟩
    · have h := checkNewItemsGo_firstRun_length results 0
      simpa [checkNewItems] using h
    · rw [updateSeen_nil results hnodup hlen]
      apply checkNewItemsGo_all_seen
      intro item hitem
      simpa using List.mem_map_of_mem Item.item_id hitem
  · intro hne
    refine ⟨checkNewItems_not_first prevIds results hne, ?_⟩
    intro item hitem hnew
    rw [checkNewItems_not_first prevIds results hne,
      count_newSearchResult_map,
      show (results.filter (fun it => !prevIds.contains it.item_id)).map
          Item.item_id =
        (results.map Item.item_id).filter (fun i => !prevIds.contains i) from
        map_filter_id (fun i => !prevIds.contains i) results]
    have hmem : item.item_id ∈ (results.map Item.item_id).filter
        (fun i => !prevIds.contains i) := by
      rw [List.mem_filter]
      exact ⟨List.mem_map_of_mem Item.item_id hitem, by simpa using hnew⟩
    exact List.count_eq_one_of_mem
      (hnodup.filter (fun i => !prevIds.contains i)) hmem

/-- Witness for the amended C2: 8 fresh items on a first run yield
`min 8 5 = 5` events, and repeating the identical poll yields none. -/
theorem c2_search_events_witness :
    ((checkNewItems []
        [{ item_id := "s1" }, { item_id := "s2" }, { item_id := "s3" },
         { item_id := "s4" }, { item_id := "s5" }, { item_id := "s6" },
         { item_id := "s7" }, { item_id := "s8" }]).length =
      min ([{ item_id := "s1" }, { item_id := "s2" }, { item_id := "s3" },
            { item_id := "s4" }, { item_id := "s5" }, { item_id := "s6" },
            { item_id := "s7" }, { item_id := "s8" }] : List Item).length 5)
    ∧ checkNewItems
        (updateSeen []
          [{ item_id := "s1" }, { item_id := "s2" }, { item_id := "s3" },
           { item_id := "s4" }, { item_id := "s5" }, { item_id := "s6" },
           { item_id := "s7" }, { item_id := "s8" }])
        [{ item_id := "s1" }, { item_id := "s2" }, { item_id := "s3" },
         { item_id := "s4" }, { item_id := "s5" }, { item_id := "s6" },
         { item_id := "s7" }, { item_id := "s8" }] = [] := by
  have h := (c2_search_events []
    [{ item_id := "s1" }, { item_id := "s2" }, { item_id := "s3" },
     { item_id := "s4" }, { item_id := "s5" }, { item_id := "s6" },
     { item_id := "s7" }, { item_id := "s8" }] (by decide)).1 rfl (by decide)
  exact ⟨h.1, h.2.2⟩

end EbayMonitor
